import Mathlib

/-!
Shallow embedding of the MaestroDatabase storage engine core.

The repository has two near-duplicate engine classes named `MDB`:
one in `maestrodatabase_terminal.py` (namespace `TermDB` below) and one in
`maestrodatabase_gui.py` (namespace `GuiDB` below).  Python dictionaries are
modelled as ordered association lists (`List (String × α)`) with the usual
dict semantics: lookup by key, assignment replacing in place or appending,
deletion filtering the key out.  Python scalar values are modelled by
`Value`; a Python float payload is modelled as a rational number, which is
faithful for every behaviour the engine exercises (the engine only stores
values and compares them with `==`, it never performs float arithmetic).
Python exceptions are modelled by returning `Except Err α` together with the
state at the point of raising, so a failed operation exposes the state it
leaves behind, exactly as a raised exception does.
-/

/-- The Python type objects a schema can declare (`int`, `float`, `str`,
`bool`); a schema entry may instead be `None`, modelled by `Option PyKind`
being `none`. -/
inductive PyKind where
  | int
  | float
  | str
  | bool
deriving DecidableEq, Repr

/-- A Python scalar value as stored in records: int, float, str, bool or
`None`.  The float payload is a rational (see the module docstring). -/
inductive Value where
  | int (n : Int)
  | float (q : Rat)
  | str (s : String)
  | bool (b : Bool)
  | null
deriving DecidableEq, Repr

/-- Python `isinstance(v, t)` for the four schema type objects.  In Python,
`bool` is a subclass of `int`, so `isinstance(True, int)` is `True`; an
`int` is not a `float`; `None` is an instance of none of the four. -/
def isinst : Value → PyKind → Bool
  | .int _, .int => true
  | .bool _, .int => true
  | .bool _, .bool => true
  | .float _, .float => true
  | .str _, .str => true
  | _, _ => false

/-- Numeric view used by Python `==`: ints, floats and bools compare by
numeric value (`True == 1`, `1 == 1.0`). -/
def Value.toRat? : Value → Option Rat
  | .int n => some (n : Rat)
  | .float q => some q
  | .bool b => some (if b then 1 else 0)
  | _ => none

/-- Python `==` on the scalar values the engine stores. -/
def pyEq (a b : Value) : Bool :=
  match a.toRat?, b.toRat? with
  | some x, some y => x = y
  | _, _ =>
    match a, b with
    | .str s, .str t => s = t
    | .null, .null => true
    | _, _ => false

/-- A record: a Python dict from column name to value. -/
abbrev Record := List (String × Value)

/-- A schema: a Python dict from column name to a type object or `None`. -/
abbrev Schema := List (String × Option PyKind)

/-- Python dict lookup `m[k]` / `k in m`, returning `none` when absent. -/
def lookupA (m : List (String × α)) (k : String) : Option α :=
  match m with
  | [] => none
  | p :: rest => if p.1 = k then some p.2 else lookupA rest k

/-- Python dict assignment `m[k] = v`: replace in place if the key exists,
otherwise append at the end (insertion order is preserved). -/
def setA (m : List (String × α)) (k : String) (v : α) : List (String × α) :=
  match m with
  | [] => [(k, v)]
  | p :: rest => if p.1 = k then (k, v) :: rest else p :: setA rest k v

/-- Python dict deletion `del m[k]`. -/
def delA (m : List (String × α)) (k : String) : List (String × α) :=
  match m with
  | [] => []
  | p :: rest => if p.1 = k then rest else p :: delA rest k

/-- Python `record.get(k)`: the stored value, or `None` when the key is
absent (a stored `None` and an absent key are indistinguishable to `get`). -/
def getD (r : Record) (k : String) : Value :=
  (lookupA r k).getD .null

/-- A JSON document as produced by `json.load` / consumed by `json.dump`. -/
inductive JVal where
  | null
  | bool (b : Bool)
  | int (n : Int)
  | float (q : Rat)
  | str (s : String)
  | arr (xs : List JVal)
  | obj (fs : List (String × JVal))

/-- Serialising a stored scalar value to JSON. -/
def Value.toJ : Value → JVal
  | .int n => .int n
  | .float q => .float q
  | .str s => .str s
  | .bool b => .bool b
  | .null => .null

/-- Serialising a record to a JSON object. -/
def Record.toJ (r : Record) : JVal :=
  .obj (r.map (fun p => (p.1, p.2.toJ)))

/-- Parsing a JSON scalar back to a stored value; containers are not scalar
values. -/
def JVal.toVal? : JVal → Option Value
  | .null => some .null
  | .bool b => some (.bool b)
  | .int n => some (.int n)
  | .float q => some (.float q)
  | .str s => some (.str s)
  | _ => none

/-- Parsing the field list of a JSON object into a record of scalar values. -/
def fieldsToRecord : List (String × JVal) → Option Record
  | [] => some []
  | (k, j) :: rest =>
    match j.toVal?, fieldsToRecord rest with
    | some v, some r => some ((k, v) :: r)
    | _, _ => none

/-- Parsing a JSON value as one record. -/
def asRecord : JVal → Option Record
  | .obj fs => fieldsToRecord fs
  | _ => none

/-- Parsing a list of JSON values as a list of records. -/
def recordsOf : List JVal → Option (List Record)
  | [] => some []
  | j :: rest =>
    match asRecord j, recordsOf rest with
    | some r, some rs => some (r :: rs)
    | _, _ => none

/-- The error kinds the engine raises (Python exception classes with the
message families the source uses). -/
inductive Err where
  /-- `ValueError: Table '…' already exists.` -/
  | tableExists (n : String)
  /-- `ValueError: Table '…' does not exist.` -/
  | noTable (n : String)
  /-- `ValueError: Missing column '…' in record.` -/
  | missingColumn (c : String)
  /-- `TypeError: Column '…' must be of type …` -/
  | typeMismatch (c : String)
  /-- `ValueError: Duplicate entry for '…' = …` -/
  | duplicateKey (c : String)
  /-- `FileNotFoundError: No saved table '…' found.` -/
  | fileNotFound (n : String)
  /-- `ValueError: Unsupported .mdb format` -/
  | unsupportedFormat
  /-- A crash Python would raise on malformed nested data (for example
  calling `.items()` on a non-dict); distinct from every typed engine
  error. -/
  | badData
deriving DecidableEq, Repr

/-- The in-memory and on-disk state of one `MDB` instance: `tables`,
`schemas` and `_transactions` are its three dict attributes; `files` models
the data folder as a map from table name to the JSON document stored in
that table's file. -/
structure MDBState where
  tables : List (String × List Record)
  schemas : List (String × Schema)
  transactions : List (String × List Record)
  files : List (String × JVal)

/-- The in-memory part of the state (everything except the data folder). -/
def MDBState.inMem (s : MDBState) :
    List (String × List Record) × List (String × Schema) ×
      List (String × List Record) :=
  (s.tables, s.schemas, s.transactions)

/-! ## The terminal engine (`maestrodatabase_terminal.py`, class `MDB`) -/

namespace TermDB

/-- `_validate_record`'s loop over the schema items: a declared column must
be present; when a type is declared and `isinstance` fails, a non-`None`
value raises `TypeError`. -/
def validateCols : Schema → Record → Except Err Unit
  | [], _ => .ok ()
  | (col, dtype) :: rest, record =>
    match lookupA record col with
    | none => .error (.missingColumn col)
    | some v =>
      match dtype with
      | none => validateCols rest record
      | some t =>
        if ¬ isinst v t then
          if v ≠ .null then .error (.typeMismatch col)
          else validateCols rest record
        else validateCols rest record

/-- `MDB._validate_record`: no check when the table has no schema entry. -/
def validateRecord (s : MDBState) (tableName : String) (record : Record) :
    Except Err Unit :=
  match lookupA s.schemas tableName with
  | none => .ok ()
  | some schema => validateCols schema record

/-- The JSON document `MDB._save` writes: `json.dump(self.tables[name])`,
the bare row list. -/
def saveData (s : MDBState) (tableName : String) : JVal :=
  .arr (((lookupA s.tables tableName).getD []).map Record.toJ)

/-- `MDB._save`: overwrite the table's file (`_save` is only called with a
live table, so the row list is always present). -/
def save (s : MDBState) (tableName : String) : MDBState :=
  { s with files := setA s.files tableName (saveData s tableName) }

/-- `MDB.create_table`.  Python's `if schema:` is falsy for both `None` and
the empty dict, so an empty schema is not bound. -/
def createTable (s : MDBState) (tableName : String) (schema : Option Schema) :
    Except Err Unit × MDBState :=
  if (lookupA s.tables tableName).isSome then
    (.error (.tableExists tableName), s)
  else
    let s1 := { s with tables := setA s.tables tableName [] }
    let s2 :=
      match schema with
      | some sch =>
        if sch.isEmpty then s1
        else { s1 with schemas := setA s1.schemas tableName sch }
      | none => s1
    (.ok (), save s2 tableName)

/-- `MDB._check_table_exists`, then `del`s and file removal in
`MDB.drop_table`.  The `_transactions` dict is not touched. -/
def dropTable (s : MDBState) (tableName : String) :
    Except Err Unit × MDBState :=
  if (lookupA s.tables tableName).isSome then
    (.ok (), { s with
      tables := delA s.tables tableName,
      schemas := delA s.schemas tableName,
      files := delA s.files tableName })
  else (.error (.noTable tableName), s)

/-- The row filter shared by `select`, `update` and `delete`:
`all(record.get(k) == v for k, v in conditions.items())`. -/
def matchesConds (conds : List (String × Value)) (r : Record) : Bool :=
  conds.all (fun p => pyEq (getD r p.1) p.2)

/-- The duplicate scan in `MDB.insert`:
`existing.get(key_column) == record.get(key_column)` over existing rows. -/
def hasDuplicate (rows : List Record) (keyColumn : String) (record : Record) :
    Bool :=
  rows.any (fun existing => pyEq (getD existing keyColumn) (getD record keyColumn))

/-- `MDB.insert`: existence check, validation, optional duplicate-key check
(Python's `if key_column:` is falsy for `None` and the empty string), then
append and save. -/
def insert (s : MDBState) (tableName : String) (record : Record)
    (keyColumn : Option String) : Except Err Unit × MDBState :=
  match lookupA s.tables tableName with
  | none => (.error (.noTable tableName), s)
  | some rows =>
    match validateRecord s tableName record with
    | .error e => (.error e, s)
    | .ok () =>
      let dup :=
        match keyColumn with
        | some kc => if kc = "" then false else hasDuplicate rows kc record
        | none => false
      if dup then
        (.error (.duplicateKey (keyColumn.getD "")), s)
      else
        let s1 := { s with tables := setA s.tables tableName (rows ++ [record]) }
        (.ok (), save s1 tableName)

/-- `MDB.select`: a linear scan appending every row whose columns satisfy
every condition. -/
def select (s : MDBState) (tableName : String)
    (conds : List (String × Value)) : Except Err (List Record) × MDBState :=
  match lookupA s.tables tableName with
  | none => (.error (.noTable tableName), s)
  | some rows => (.ok (rows.filter (matchesConds conds)), s)

/-- The loop body of `update`: assign each update pair into the record. -/
def applyUpdates (r : Record) (updates : List (String × Value)) : Record :=
  updates.foldl (fun acc p => setA acc p.1 p.2) r

/-- The `for record in rows` loop of `update`: mutate matching records in
place and count them. -/
def updateRows (conds updates : List (String × Value)) :
    List Record → List Record × Nat
  | [] => ([], 0)
  | r :: rest =>
    let (rs, c) := updateRows conds updates rest
    if matchesConds conds r then (applyUpdates r updates :: rs, c + 1)
    else (r :: rs, c)

/-- `MDB.update` (terminal): mutates and saves; the count is only printed,
not returned. -/
def update (s : MDBState) (tableName : String)
    (conds updates : List (String × Value)) : Except Err Unit × MDBState :=
  match lookupA s.tables tableName with
  | none => (.error (.noTable tableName), s)
  | some rows =>
    let s1 := { s with
      tables := setA s.tables tableName (updateRows conds updates rows).1 }
    (.ok (), save s1 tableName)

/-- `MDB.delete` (terminal): keep the rows that do not match every
condition, save; the count is only printed, not returned. -/
def delete (s : MDBState) (tableName : String)
    (conds : List (String × Value)) : Except Err Unit × MDBState :=
  match lookupA s.tables tableName with
  | none => (.error (.noTable tableName), s)
  | some rows =>
    let kept := rows.filter (fun r => ¬ matchesConds conds r)
    let s1 := { s with tables := setA s.tables tableName kept }
    (.ok (), save s1 tableName)

/-- `MDB.begin_transaction`: a deep copy of the current rows becomes the
pending snapshot (deep copy is the identity on immutable values). -/
def beginTransaction (s : MDBState) (tableName : String) :
    Except Err Unit × MDBState :=
  match lookupA s.tables tableName with
  | none => (.error (.noTable tableName), s)
  | some rows =>
    (.ok (), { s with transactions := setA s.transactions tableName rows })

/-- `MDB.rollback`: restore and pop the snapshot when one is pending;
otherwise print a notice and do nothing (not an error). -/
def rollback (s : MDBState) (tableName : String) :
    Except Err Unit × MDBState :=
  match lookupA s.transactions tableName with
  | some snap =>
    (.ok (), { s with
      tables := setA s.tables tableName snap,
      transactions := delA s.transactions tableName })
  | none => (.ok (), s)

/-- `MDB.commit`: pop the snapshot and save when one is pending; otherwise
print a notice and do nothing. -/
def commit (s : MDBState) (tableName : String) :
    Except Err Unit × MDBState :=
  match lookupA s.transactions tableName with
  | some _ =>
    let s1 := { s with transactions := delA s.transactions tableName }
    (.ok (), save s1 tableName)
  | none => (.ok (), s)

end TermDB

/-! ## The GUI engine (`maestrodatabase_gui.py`, class `MDB`) -/

namespace GuiDB

/-- `_validate_record`'s loop in the GUI engine: the same checks as the
terminal engine, with the `None` allowance written as one conjunction
(`if dtype and record[col] is not None and not isinstance(...)`). -/
def validateCols : Schema → Record → Except Err Unit
  | [], _ => .ok ()
  | (col, dtype) :: rest, record =>
    match lookupA record col with
    | none => .error (.missingColumn col)
    | some v =>
      match dtype with
      | none => validateCols rest record
      | some t =>
        if v ≠ .null ∧ ¬ isinst v t then .error (.typeMismatch col)
        else validateCols rest record

/-- `MDB._validate_record` (GUI). -/
def validateRecord (s : MDBState) (tableName : String) (record : Record) :
    Except Err Unit :=
  match lookupA s.schemas tableName with
  | none => .ok ()
  | some schema => validateCols schema record

/-- Rendering one schema entry for `_save`:
`v.__name__ if v else None`. -/
def kindName : Option PyKind → JVal
  | some .int => .str "int"
  | some .float => .str "float"
  | some .str => .str "str"
  | some .bool => .str "bool"
  | none => .null

/-- The JSON document the GUI `MDB._save` writes: an object with the
`schema` rendered as kind-name strings (or null) and the live `rows`.  The
schema uses `self.schemas.get(table_name, {})`, hence the empty default. -/
def saveData (s : MDBState) (tableName : String) : JVal :=
  .obj [
    ("schema", .obj (((lookupA s.schemas tableName).getD []).map
      (fun p => (p.1, kindName p.2)))),
    ("rows", .arr (((lookupA s.tables tableName).getD []).map Record.toJ))]

/-- `MDB._save` (GUI): overwrite the table's file with the Current-shape
document. -/
def save (s : MDBState) (tableName : String) : MDBState :=
  { s with files := setA s.files tableName (saveData s tableName) }

/-- `MDB.create_table` (GUI): identical to the terminal one except for the
format `_save` writes. -/
def createTable (s : MDBState) (tableName : String) (schema : Option Schema) :
    Except Err Unit × MDBState :=
  if (lookupA s.tables tableName).isSome then
    (.error (.tableExists tableName), s)
  else
    let s1 := { s with tables := setA s.tables tableName [] }
    let s2 :=
      match schema with
      | some sch =>
        if sch.isEmpty then s1
        else { s1 with schemas := setA s1.schemas tableName sch }
      | none => s1
    (.ok (), save s2 tableName)

/-- Legacy-format schema inference for one value of the first record:
`isinstance(v, int)` (true for booleans) gives `int`, then `float`, then
`str`, anything else `None`. -/
def inferKind (v : Value) : Option PyKind :=
  if isinst v .int then some .int
  else if isinst v .float then some .float
  else if isinst v .str then some .str
  else none

/-- Current-format schema parsing for one entry: the strings `"int"`,
`"float"` and `"str"` map to the type objects, anything else to `None`. -/
def parseKind : JVal → Option PyKind
  | .str s =>
    if s = "int" then some PyKind.int
    else if s = "float" then some PyKind.float
    else if s = "str" then some PyKind.str
    else none
  | _ => none

/-- Parsing the `schema` field of a Current-format document (Python calls
`.items()` on it, so a non-object crashes). -/
def parseSchemaObj : JVal → Option Schema
  | .obj fs => some (fs.map (fun p => (p.1, parseKind p.2)))
  | _ => none

/-- Legacy-format schema inference over the adopted rows: `if data:` guards
the inference, so an empty file yields an empty schema; otherwise only the
first record is examined. -/
def inferSchema : List Record → Schema
  | [] => []
  | r0 :: _ => r0.map (fun p => (p.1, inferKind p.2))

/-- The `rows` field of a Current-format document: `data.get("rows", [])`.
(Python would adopt a non-list value as-is and crash on the next row
operation; the model flattens that deferred crash to the empty list, a
corner no claim exercises.) -/
def rowsField (fs : List (String × JVal)) : List JVal :=
  match (lookupA fs "rows").getD (JVal.arr []) with
  | .arr rs => rs
  | _ => []

/-- `MDB.load_table` (GUI): detect the on-disk shape.  A JSON array is the
legacy format: the rows are adopted and a schema is inferred from the first
record (empty file: empty schema).  A JSON object is the current format:
`schema` (default `{}`) is parsed entry-wise and `rows` (default `[]`)
adopted.  Any other top-level shape raises `Unsupported .mdb format`; a
missing file raises `FileNotFoundError`.  Rows and schema fields that are
not lists of records / objects would make Python crash on later access or
on `.items()`; those crashes are modelled by `Err.badData`. -/
def loadTable (s : MDBState) (tableName : String) :
    Except Err Unit × MDBState :=
  match lookupA s.files tableName with
  | none => (.error (.fileNotFound tableName), s)
  | some doc =>
    match doc with
    | .arr xs =>
      match recordsOf xs with
      | none => (.error .badData, s)
      | some rows =>
        (.ok (), { s with
          tables := setA s.tables tableName rows,
          schemas := setA s.schemas tableName (inferSchema rows) })
    | .obj fs =>
      match parseSchemaObj ((lookupA fs "schema").getD (.obj [])) with
      | none => (.error .badData, s)
      | some schema =>
        match recordsOf (rowsField fs) with
        | none => (.error .badData, s)
        | some rows =>
          (.ok (), { s with
            schemas := setA s.schemas tableName schema,
            tables := setA s.tables tableName rows })
    | _ => (.error .unsupportedFormat, s)

/-- `MDB.drop_table` (GUI): same as the terminal engine; `_transactions`
is not touched. -/
def dropTable (s : MDBState) (tableName : String) :
    Except Err Unit × MDBState :=
  if (lookupA s.tables tableName).isSome then
    (.ok (), { s with
      tables := delA s.tables tableName,
      schemas := delA s.schemas tableName,
      files := delA s.files tableName })
  else (.error (.noTable tableName), s)

/-- `MDB.insert` (GUI): the same checks, append and save as the terminal
engine, saving in the Current shape. -/
def insert (s : MDBState) (tableName : String) (record : Record)
    (keyColumn : Option String) : Except Err Unit × MDBState :=
  match lookupA s.tables tableName with
  | none => (.error (.noTable tableName), s)
  | some rows =>
    match validateRecord s tableName record with
    | .error e => (.error e, s)
    | .ok () =>
      let dup :=
        match keyColumn with
        | some kc => if kc = "" then false else TermDB.hasDuplicate rows kc record
        | none => false
      if dup then
        (.error (.duplicateKey (keyColumn.getD "")), s)
      else
        let s1 := { s with tables := setA s.tables tableName (rows ++ [record]) }
        (.ok (), save s1 tableName)

/-- `MDB.update` (GUI): same loop as the terminal engine, but the count is
returned. -/
def update (s : MDBState) (tableName : String)
    (conds updates : List (String × Value)) : Except Err Nat × MDBState :=
  match lookupA s.tables tableName with
  | none => (.error (.noTable tableName), s)
  | some rows =>
    let (newRows, cnt) := TermDB.updateRows conds updates rows
    let s1 := { s with tables := setA s.tables tableName newRows }
    (.ok cnt, save s1 tableName)

/-- `MDB.delete` (GUI): same filter as the terminal engine, but the count
(original length minus remaining length) is returned. -/
def delete (s : MDBState) (tableName : String)
    (conds : List (String × Value)) : Except Err Nat × MDBState :=
  match lookupA s.tables tableName with
  | none => (.error (.noTable tableName), s)
  | some rows =>
    let kept := rows.filter (fun r => ¬ TermDB.matchesConds conds r)
    let s1 := { s with tables := setA s.tables tableName kept }
    (.ok (rows.length - kept.length), save s1 tableName)

/-- `MDB.begin_transaction` (GUI). -/
def beginTransaction (s : MDBState) (tableName : String) :
    Except Err Unit × MDBState :=
  match lookupA s.tables tableName with
  | none => (.error (.noTable tableName), s)
  | some rows =>
    (.ok (), { s with transactions := setA s.transactions tableName rows })

/-- `MDB.rollback` (GUI): restore and pop when a snapshot is pending,
silently do nothing otherwise. -/
def rollback (s : MDBState) (tableName : String) :
    Except Err Unit × MDBState :=
  match lookupA s.transactions tableName with
  | some snap =>
    (.ok (), { s with
      tables := setA s.tables tableName snap,
      transactions := delA s.transactions tableName })
  | none => (.ok (), s)

/-- `MDB.commit` (GUI). -/
def commit (s : MDBState) (tableName : String) :
    Except Err Unit × MDBState :=
  match lookupA s.transactions tableName with
  | some _ =>
    let s1 := { s with transactions := delA s.transactions tableName }
    (.ok (), save s1 tableName)
  | none => (.ok (), s)

end GuiDB

/-! ## Row-mutation operations and concrete example states -/

/-- The row-mutating engine operations a client can issue between `begin`
and `rollback`. -/
inductive MutOp where
  | ins (tableName : String) (record : Record) (keyColumn : Option String)
  | upd (tableName : String) (conds updates : List (String × Value))
  | del (tableName : String) (conds : List (String × Value))

/-- Run one row mutation on the GUI engine, keeping the state an exception
leaves behind when the operation fails. -/
def applyMut (s : MDBState) : MutOp → MDBState
  | .ins n r k => (GuiDB.insert s n r k).2
  | .upd n c u => (GuiDB.update s n c u).2
  | .del n c => (GuiDB.delete s n c).2

/-- Run a sequence of row mutations. -/
def applyMuts (s : MDBState) (ops : List MutOp) : MDBState :=
  ops.foldl applyMut s

/-- An engine with no tables, schemas, transactions or files. -/
def exEmpty : MDBState := ⟨[], [], [], []⟩

/-- A live empty table `t` whose schema declares column `x` of type `int`. -/
def exIntSchema : MDBState :=
  ⟨[("t", [])], [("t", [("x", some PyKind.int)])], [], []⟩

/-- A live empty table `t` whose schema declares column `flag` of type
`bool`. -/
def exBoolSchema : MDBState :=
  ⟨[("t", [])], [("t", [("flag", some PyKind.bool)])], [], []⟩

/-- A table `t` with one row and an `int` column schema. -/
def exOneRow : MDBState :=
  ⟨[("t", [[("id", Value.int 1)]])], [("t", [("id", some PyKind.int)])], [], []⟩

/-- A data folder holding a legacy-format file for `t`: a bare list with a
single record whose only value is the boolean `true`. -/
def exLegacyBoolFile : MDBState :=
  ⟨[], [], [], [("t", JVal.arr [JVal.obj [("flag", JVal.bool true)]])]⟩

/-- A live table `t` carrying a pending transaction snapshot (taken when
the table was still empty). -/
def exPendingTx : MDBState :=
  ⟨[("t", [[("id", Value.int 1)]])], [], [("t", [])], []⟩

/-- A data folder holding a Current-format file for `t` with an `int`
schema entry and no rows. -/
def exCurrentFile : MDBState :=
  ⟨[], [], [], [("t", JVal.obj [("schema", JVal.obj [("id", JVal.str "int")]),
    ("rows", JVal.arr [])])]⟩

/-- A data folder whose file for `t` holds a bare integer, neither a list
nor an object. -/
def exScalarFile : MDBState := ⟨[], [], [], [("t", JVal.int 5)]⟩

/-- Three inserts into table `t`, the mutation sequence of the spec's
transaction test. -/
def exThreeInserts : List MutOp :=
  [.ins "t" [("id", Value.int 1)] none,
   .ins "t" [("id", Value.int 2)] none,
   .ins "t" [("id", Value.int 3)] none]

/-! ## Association-list (Python dict) lemmas -/

/-- A Python dict invariant: keys occur at most once. -/
def keysUnique (m : List (String × α)) : Prop :=
  (m.map Prod.fst).Nodup

theorem lookupA_setA_self (m : List (String × α)) (k : String) (v : α) :
    lookupA (setA m k v) k = some v := by
  induction m with
  | nil => simp [setA, lookupA]
  | cons p rest ih =>
    by_cases h : p.1 = k
    · simp [setA, h, lookupA]
    · simp [setA, h, lookupA, ih]

theorem lookupA_setA_ne (m : List (String × α)) (k k' : String) (v : α)
    (h : k ≠ k') : lookupA (setA m k v) k' = lookupA m k' := by
  induction m with
  | nil => simp [setA, lookupA, h]
  | cons p rest ih =>
    by_cases hp : p.1 = k
    · simp [setA, hp, lookupA, h, hp ▸ h]
    · simp [setA, hp, lookupA, ih]

theorem lookupA_eq_none_iff (m : List (String × α)) (k : String) :
    lookupA m k = none ↔ k ∉ m.map Prod.fst := by
  induction m with
  | nil => simp [lookupA]
  | cons p rest ih =>
    by_cases h : p.1 = k
    · simp [lookupA, h]
    · simp [lookupA, h, ih, Ne.symm h]

theorem mem_keys_setA (m : List (String × α)) (k a : String) (v : α) :
    a ∈ (setA m k v).map Prod.fst ↔ a ∈ m.map Prod.fst ∨ a = k := by
  induction m with
  | nil => simp [setA]
  | cons p rest ih =>
    by_cases h : p.1 = k
    · simp [setA, h]
      tauto
    · simp [setA, h, ih]
      tauto

theorem keysUnique_setA (m : List (String × α)) (k : String) (v : α)
    (h : keysUnique m) : keysUnique (setA m k v) := by
  induction m with
  | nil => simp [keysUnique, setA]
  | cons p rest ih =>
    rw [keysUnique, List.map_cons, List.nodup_cons] at h
    by_cases hp : p.1 = k
    · rw [keysUnique, setA]
      simp only [hp, if_pos]
      rw [List.map_cons, List.nodup_cons]
      exact ⟨hp ▸ h.1, h.2⟩
    · rw [keysUnique, setA]
      simp only [hp, if_neg, not_false_iff]
      rw [List.map_cons, List.nodup_cons]
      refine ⟨?_, ih h.2⟩
      rw [mem_keys_setA]
      rintro (hc | hc)
      · exact h.1 hc
      · exact hp hc

theorem lookupA_delA_self (m : List (String × α)) (k : String)
    (h : keysUnique m) : lookupA (delA m k) k = none := by
  induction m with
  | nil => simp [delA, lookupA]
  | cons p rest ih =>
    rw [keysUnique, List.map_cons, List.nodup_cons] at h
    by_cases hp : p.1 = k
    · rw [delA]
      simp only [hp, if_pos]
      rw [lookupA_eq_none_iff]
      exact hp ▸ h.1
    · rw [delA]
      simp only [hp, if_neg, not_false_iff]
      rw [lookupA]
      simp [hp, ih h.2]

/-! ## Serialisation round-trip lemmas -/

theorem toVal?_toJ (v : Value) : v.toJ.toVal? = some v := by
  cases v <;> rfl

theorem fieldsToRecord_toJ (r : Record) :
    fieldsToRecord (r.map (fun p => (p.1, p.2.toJ))) = some r := by
  induction r with
  | nil => rfl
  | cons p rest ih => simp [fieldsToRecord, toVal?_toJ, ih]

theorem asRecord_toJ (r : Record) : asRecord r.toJ = some r := by
  rw [Record.toJ, asRecord]
  exact fieldsToRecord_toJ r

theorem recordsOf_toJ (rs : List Record) :
    recordsOf (rs.map Record.toJ) = some rs := by
  induction rs with
  | nil => rfl
  | cons r rest ih => simp [recordsOf, asRecord_toJ, ih]

/-- Saving then parsing a schema entry is the identity except for `bool`
kinds: the GUI `_save` renders `bool` as the string `"bool"`, which
`load_table` does not recognise and maps to `None`. -/
theorem parseKind_kindName (d : Option PyKind) (h : d ≠ some PyKind.bool) :
    GuiDB.parseKind (GuiDB.kindName d) = d := by
  match d with
  | none => rfl
  | some PyKind.int => rfl
  | some PyKind.float => rfl
  | some PyKind.str => rfl
  | some PyKind.bool => exact absurd rfl h

theorem schema_roundTrip (sch : Schema)
    (h : ∀ p ∈ sch, p.2 ≠ some PyKind.bool) :
    sch.map (fun p => (p.1, GuiDB.parseKind (GuiDB.kindName p.2))) = sch := by
  induction sch with
  | nil => rfl
  | cons p rest ih =>
    have h1 : p.2 ≠ some PyKind.bool := h p (List.mem_cons_self p rest)
    have h2 : ∀ q ∈ rest, q.2 ≠ some PyKind.bool :=
      fun q hq => h q (List.mem_cons_of_mem p hq)
    simp [parseKind_kindName p.2 h1, ih h2]

/-! ## Row-transformation lemmas -/

theorem matchesConds_nil (r : Record) : TermDB.matchesConds [] r = true := rfl

theorem filter_matchesConds_nil (rows : List Record) :
    rows.filter (TermDB.matchesConds []) = rows := by
  induction rows with
  | nil => rfl
  | cons r rest ih => simp [List.filter_cons, matchesConds_nil, ih]

/-- The `update` loop computes the pointwise update of matching rows and
counts the matches. -/
theorem updateRows_eq (conds updates : List (String × Value))
    (rows : List Record) :
    TermDB.updateRows conds updates rows =
      (rows.map (fun r => if TermDB.matchesConds conds r
          then TermDB.applyUpdates r updates else r),
        rows.countP (TermDB.matchesConds conds)) := by
  induction rows with
  | nil => rfl
  | cons r rest ih =>
    by_cases h : TermDB.matchesConds conds r <;>
      simp [TermDB.updateRows, ih, h, List.countP_cons]

/-- When no row matches, the `update` loop leaves the rows unchanged. -/
theorem updateRows_of_no_match (conds updates : List (String × Value))
    (rows : List Record)
    (h : rows.countP (TermDB.matchesConds conds) = 0) :
    (TermDB.updateRows conds updates rows).1 = rows := by
  rw [updateRows_eq]
  have hno := List.countP_eq_zero.mp h
  induction rows with
  | nil => rfl
  | cons r rest ih =>
    have hr : ¬ TermDB.matchesConds conds r := hno r (List.mem_cons_self r rest)
    simp only [List.map_cons, if_neg hr]
    rw [List.countP_cons] at h
    simp only [hr] at h
    have := ih (by omega) (fun a ha => hno a (List.mem_cons_of_mem r ha))
    simp at this
    simp [this]

/-- The count `delete` computes (original length minus remaining length)
is the number of matching rows. -/
theorem delete_count (p : Record → Bool) (rows : List Record) :
    rows.length - (rows.filter (fun r => ¬ p r)).length = rows.countP p := by
  have h1 := List.length_eq_countP_add_countP (p := p) rows
  have h2 : rows.countP (fun a => ¬ p a) = (rows.filter (fun a => ¬ p a)).length :=
    List.countP_eq_length_filter _ _
  omega

/-! ## Engine-behaviour lemmas -/

/-- The two engines' validation loops are behaviourally equal: the terminal
engine rescues a `None` value after a failed `isinstance`, the GUI engine
checks `is not None` before it, and the two orders decide the same way. -/
theorem validateCols_eq (sch : Schema) (r : Record) :
    TermDB.validateCols sch r = GuiDB.validateCols sch r := by
  induction sch with
  | nil => rfl
  | cons p rest ih =>
    obtain ⟨col, dtype⟩ := p
    rw [TermDB.validateCols, GuiDB.validateCols]
    cases lookupA r col with
    | none => rfl
    | some v =>
      cases dtype with
      | none => exact ih
      | some t =>
        by_cases hi : isinst v t = true <;> by_cases hn : v = Value.null <;>
          simp [hi, hn, ih]

theorem validateRecord_eq (s : MDBState) (tableName : String) (r : Record) :
    TermDB.validateRecord s tableName r = GuiDB.validateRecord s tableName r := by
  rw [TermDB.validateRecord, GuiDB.validateRecord]
  cases lookupA s.schemas tableName with
  | none => rfl
  | some sch => exact validateCols_eq sch r

/-- A validation failure is always a missing column or a kind mismatch. -/
theorem validateCols_error (sch : Schema) (r : Record) (e : Err)
    (h : GuiDB.validateCols sch r = .error e) :
    (∃ c, e = Err.missingColumn c) ∨ (∃ c, e = Err.typeMismatch c) := by
  induction sch with
  | nil => simp [GuiDB.validateCols] at h
  | cons p rest ih =>
    obtain ⟨col, dtype⟩ := p
    rw [GuiDB.validateCols] at h
    split at h
    · exact Or.inl ⟨col, ((Except.error.injEq _ _).mp h).symm⟩
    · split at h
      · exact ih h
      · split at h
        · exact Or.inr ⟨col, ((Except.error.injEq _ _).mp h).symm⟩
        · exact ih h

/-- No GUI-engine row mutation touches the `_transactions` dict. -/
theorem applyMut_transactions (s : MDBState) (op : MutOp) :
    (applyMut s op).transactions = s.transactions := by
  cases op with
  | ins n r k =>
    show (GuiDB.insert s n r k).2.transactions = s.transactions
    rw [GuiDB.insert]
    cases lookupA s.tables n with
    | none => rfl
    | some rows =>
      cases GuiDB.validateRecord s n r with
      | error e => rfl
      | ok u =>
        cases u
        dsimp only
        split <;> rfl
  | upd n c u =>
    show (GuiDB.update s n c u).2.transactions = s.transactions
    rw [GuiDB.update]
    cases lookupA s.tables n with
    | none => rfl
    | some rows => rfl
  | del n c =>
    show (GuiDB.delete s n c).2.transactions = s.transactions
    rw [GuiDB.delete]
    cases lookupA s.tables n with
    | none => rfl
    | some rows => rfl

/-- No sequence of row mutations touches the `_transactions` dict. -/
theorem applyMuts_transactions (ops : List MutOp) (s : MDBState) :
    (applyMuts s ops).transactions = s.transactions := by
  induction ops generalizing s with
  | nil => rfl
  | cons op rest ih =>
    rw [applyMuts, List.foldl_cons]
    rw [show List.foldl applyMut (applyMut s op) rest =
      applyMuts (applyMut s op) rest from rfl]
    rw [ih, applyMut_transactions]

/-! ## Claims -/

/-- Claim C2 (code bug): the spec requires that a Boolean value is never
accepted where `Integer` is declared, but both engines' `_validate_record`
use Python `isinstance`, and `bool` is a subclass of `int`: validating the
record `{"x": True}` against the schema `{"x": int}` succeeds in both
engines, and the insert goes through. -/
theorem c2_bool_accepted_where_int_declared :
    GuiDB.validateRecord exIntSchema "t" [("x", Value.bool true)] =
      Except.ok () ∧
    TermDB.validateRecord exIntSchema "t" [("x", Value.bool true)] =
      Except.ok () ∧
    (GuiDB.insert exIntSchema "t" [("x", Value.bool true)] none).1 =
      Except.ok () ∧
    isinst (Value.bool true) PyKind.int = true :=
  ⟨rfl, rfl, rfl, rfl⟩

/-- Claim C3 counterexample: the terminal engine's `_save` writes the bare
row list.  Creating a table through the terminal engine leaves its file
holding a JSON array (the Legacy shape), not an object with `schema` and
`rows` fields — refuting "a bare row list is never written". -/
theorem c3_counterexample :
    (TermDB.createTable exEmpty "t" none).1 = Except.ok () ∧
    lookupA (TermDB.createTable exEmpty "t" none).2.files "t" =
      some (JVal.arr []) :=
  ⟨rfl, rfl⟩

/-- Claim C3 (amended): the GUI engine's `_save` always emits the Current
shape — an object with a `schema` field of kind-name strings (or null) and
a `rows` field holding the live row sequence — and each GUI mutating
operation (create, insert, update, delete) that succeeds has synchronously
written exactly that document to the table's file.  The terminal engine's
`_save` instead always writes the bare row list. -/
theorem c3_save_shape_after_mutations (s : MDBState) (tableName : String) :
    (GuiDB.saveData s tableName =
      JVal.obj [
        ("schema", JVal.obj (((lookupA s.schemas tableName).getD []).map
          (fun p => (p.1, GuiDB.kindName p.2)))),
        ("rows", JVal.arr (((lookupA s.tables tableName).getD []).map
          Record.toJ))]) ∧
    (TermDB.saveData s tableName =
      JVal.arr (((lookupA s.tables tableName).getD []).map Record.toJ)) ∧
    (∀ record keyColumn,
      (GuiDB.insert s tableName record keyColumn).1 = Except.ok () →
      lookupA (GuiDB.insert s tableName record keyColumn).2.files tableName =
        some (GuiDB.saveData (GuiDB.insert s tableName record keyColumn).2
          tableName)) ∧
    (∀ conds updates m,
      (GuiDB.update s tableName conds updates).1 = Except.ok m →
      lookupA (GuiDB.update s tableName conds updates).2.files tableName =
        some (GuiDB.saveData (GuiDB.update s tableName conds updates).2
          tableName)) ∧
    (∀ conds m,
      (GuiDB.delete s tableName conds).1 = Except.ok m →
      lookupA (GuiDB.delete s tableName conds).2.files tableName =
        some (GuiDB.saveData (GuiDB.delete s tableName conds).2 tableName)) ∧
    (∀ schema,
      (GuiDB.createTable s tableName schema).1 = Except.ok () →
      lookupA (GuiDB.createTable s tableName schema).2.files tableName =
        some (GuiDB.saveData (GuiDB.createTable s tableName schema).2
          tableName)) := by
  refine ⟨rfl, rfl, ?_, ?_, ?_, ?_⟩
  · intro record keyColumn hok
    unfold GuiDB.insert at hok ⊢
    split at hok
    · simp at hok
    · split at hok
      · simp at hok
      · dsimp only at hok ⊢
        split at hok
        next hdup => simp at hok
        next hdup => rw [if_neg hdup]; exact lookupA_setA_self _ _ _
  · intro conds updates m hok
    unfold GuiDB.update at hok ⊢
    split at hok
    · simp at hok
    · exact lookupA_setA_self _ _ _
  · intro conds m hok
    unfold GuiDB.delete at hok ⊢
    split at hok
    · simp at hok
    · exact lookupA_setA_self _ _ _
  · intro schema hok
    unfold GuiDB.createTable at hok ⊢
    split at hok
    next hs => simp at hok
    next hs =>
      rw [if_neg hs]
      dsimp only
      cases schema with
      | none => exact lookupA_setA_self _ _ _
      | some sch =>
        split
        · exact lookupA_setA_self _ _ _
        · exact lookupA_setA_self _ _ _

/-- Witness for the amended C3 theorem at concrete successful mutations on
a one-row table. -/
theorem c3_save_shape_witness :
    lookupA (GuiDB.insert exOneRow "t" [("id", Value.int 2)] none).2.files
        "t" =
      some (GuiDB.saveData
        (GuiDB.insert exOneRow "t" [("id", Value.int 2)] none).2 "t") ∧
    lookupA (GuiDB.update exOneRow "t" [] []).2.files "t" =
      some (GuiDB.saveData (GuiDB.update exOneRow "t" [] []).2 "t") ∧
    lookupA (GuiDB.delete exOneRow "t" []).2.files "t" =
      some (GuiDB.saveData (GuiDB.delete exOneRow "t" []).2 "t") ∧
    lookupA (GuiDB.createTable exOneRow "u" none).2.files "u" =
      some (GuiDB.saveData (GuiDB.createTable exOneRow "u" none).2 "u") :=
  ⟨(c3_save_shape_after_mutations exOneRow "t").2.2.1 _ none rfl,
   (c3_save_shape_after_mutations exOneRow "t").2.2.2.1 [] [] 1 rfl,
   (c3_save_shape_after_mutations exOneRow "t").2.2.2.2.1 [] 1 rfl,
   (c3_save_shape_after_mutations exOneRow "u").2.2.2.2.2 none rfl⟩

/-- Claim C7 counterexample: with a pending snapshot for `t`, dropping `t`
succeeds in both engines but the `_transactions` entry for `t` is still
there afterwards — refuting "no pending transaction entry for that name
remains in the engine". -/
theorem c7_counterexample :
    (GuiDB.dropTable exPendingTx "t").1 = Except.ok () ∧
    lookupA (GuiDB.dropTable exPendingTx "t").2.transactions "t" = some [] ∧
    (TermDB.dropTable exPendingTx "t").1 = Except.ok () ∧
    lookupA (TermDB.dropTable exPendingTx "t").2.transactions "t" = some [] :=
  ⟨rfl, rfl, rfl, rfl⟩

/-- Claim C7 (amended): `drop_table` on a live table removes the table, its
schema and its file, and does not apply the pending snapshot as a rollback —
but it leaves the `_transactions` dict entirely unchanged, so the pending
entry for the dropped name remains in the engine.  Both engines' drops are
identical. -/
theorem c7_drop_keeps_pending_snapshot (s : MDBState) (tableName : String)
    (ht : keysUnique s.tables)
    (hlive : (lookupA s.tables tableName).isSome = true) :
    (GuiDB.dropTable s tableName).1 = Except.ok () ∧
    (GuiDB.dropTable s tableName).2.transactions = s.transactions ∧
    (TermDB.dropTable s tableName).2.transactions = s.transactions ∧
    TermDB.dropTable s tableName = GuiDB.dropTable s tableName ∧
    lookupA (GuiDB.dropTable s tableName).2.tables tableName = none := by
  rw [GuiDB.dropTable, TermDB.dropTable, if_pos hlive]
  exact ⟨rfl, rfl, rfl, rfl, lookupA_delA_self s.tables tableName ht⟩

/-- Witness for the amended C7 theorem at the concrete pending-transaction
state. -/
theorem c7_drop_keeps_pending_snapshot_witness :
    (GuiDB.dropTable exPendingTx "t").1 = Except.ok () ∧
    (GuiDB.dropTable exPendingTx "t").2.transactions =
      exPendingTx.transactions ∧
    (TermDB.dropTable exPendingTx "t").2.transactions =
      exPendingTx.transactions ∧
    TermDB.dropTable exPendingTx "t" = GuiDB.dropTable exPendingTx "t" ∧
    lookupA (GuiDB.dropTable exPendingTx "t").2.tables "t" = none :=
  c7_drop_keeps_pending_snapshot exPendingTx "t"
    (by simp [keysUnique, exPendingTx]) rfl

/-- Claim C8 (confirmed): `select` returns exactly the ordered subsequence
of the table's records on which every `(column, value)` condition holds
under Python `==` (with `record.get` lookup), and with empty conditions it
returns all rows in insertion order. -/
theorem c8_select_conjunction (s : MDBState) (tableName : String)
    (conds : List (String × Value)) (rows : List Record)
    (h : lookupA s.tables tableName = some rows) :
    (TermDB.select s tableName conds).1 =
      Except.ok (rows.filter (TermDB.matchesConds conds)) ∧
    (rows.filter (TermDB.matchesConds conds)).Sublist rows ∧
    (∀ r, TermDB.matchesConds conds r = true ↔
      ∀ p ∈ conds, pyEq (getD r p.1) p.2 = true) ∧
    (TermDB.select s tableName []).1 = Except.ok rows := by
  refine ⟨?_, List.filter_sublist rows, ?_, ?_⟩
  · rw [TermDB.select, h]
  · intro r
    rw [TermDB.matchesConds, List.all_eq_true]
  · rw [TermDB.select, h]
    dsimp only
    rw [filter_matchesConds_nil]

/-- Witness for C8 on a concrete two-row table and one condition. -/
theorem c8_select_conjunction_witness :
    (TermDB.select exPendingTx "t" [("id", Value.int 1)]).1 =
      Except.ok ([[("id", Value.int 1)]].filter
        (TermDB.matchesConds [("id", Value.int 1)])) ∧
    ([[("id", Value.int 1)]].filter
      (TermDB.matchesConds [("id", Value.int 1)])).Sublist
        [[("id", Value.int 1)]] ∧
    (∀ r, TermDB.matchesConds [("id", Value.int 1)] r = true ↔
      ∀ p ∈ [("id", Value.int 1)], pyEq (getD r p.1) p.2 = true) ∧
    (TermDB.select exPendingTx "t" []).1 =
      Except.ok [[("id", Value.int 1)]] :=
  c8_select_conjunction exPendingTx "t" [("id", Value.int 1)]
    [[("id", Value.int 1)]] rfl

/-- Claim C9 (confirmed, GUI engine): `delete` returns the number of
records removed and `update` returns the number of records matched and
updated; an update whose conditions match no row returns count `0` and
leaves the row sequence unchanged. -/
theorem c9_update_delete_counts (s : MDBState) (tableName : String)
    (conds updates : List (String × Value)) (rows : List Record)
    (h : lookupA s.tables tableName = some rows) :
    (GuiDB.delete s tableName conds).1 =
      Except.ok (rows.countP (TermDB.matchesConds conds)) ∧
    (GuiDB.update s tableName conds updates).1 =
      Except.ok (rows.countP (TermDB.matchesConds conds)) ∧
    (rows.countP (TermDB.matchesConds conds) = 0 →
      (GuiDB.update s tableName conds updates).1 = Except.ok 0 ∧
      lookupA (GuiDB.update s tableName conds updates).2.tables tableName =
        some rows) := by
  refine ⟨?_, ?_, ?_⟩
  · rw [GuiDB.delete, h]
    dsimp only
    rw [delete_count (TermDB.matchesConds conds) rows]
  · rw [GuiDB.update, h]
    dsimp only
    rw [updateRows_eq]
  · intro h0
    have hmap : rows.map (fun r => if TermDB.matchesConds conds r then
        TermDB.applyUpdates r updates else r) = rows := by
      have hh := updateRows_of_no_match conds updates rows h0
      rw [updateRows_eq] at hh
      exact hh
    constructor
    · rw [GuiDB.update, h]
      dsimp only
      rw [updateRows_eq, h0]
    · rw [GuiDB.update, h]
      dsimp only
      rw [updateRows_eq]
      dsimp only
      rw [hmap]
      exact lookupA_setA_self _ _ _

/-- Witness for C9 at a one-row table with conditions matching no row. -/
theorem c9_update_delete_counts_witness :
    (GuiDB.delete exOneRow "t" [("id", Value.int 5)]).1 =
      Except.ok ([[("id", Value.int 1)]].countP
        (TermDB.matchesConds [("id", Value.int 5)])) ∧
    (GuiDB.update exOneRow "t" [("id", Value.int 5)] []).1 =
      Except.ok ([[("id", Value.int 1)]].countP
        (TermDB.matchesConds [("id", Value.int 5)])) ∧
    ([[("id", Value.int 1)]].countP
        (TermDB.matchesConds [("id", Value.int 5)]) = 0 →
      (GuiDB.update exOneRow "t" [("id", Value.int 5)] []).1 =
        Except.ok 0 ∧
      lookupA (GuiDB.update exOneRow "t" [("id", Value.int 5)] []).2.tables
        "t" = some [[("id", Value.int 1)]]) :=
  c9_update_delete_counts exOneRow "t" [("id", Value.int 5)] []
    [[("id", Value.int 1)]] rfl

/-- Claim C10 (confirmed): every failing `insert` (missing table, schema
violation, or duplicate key) raises before the append and before `_save`:
the state it leaves behind is the starting state, files included, and the
error is one of the three kinds.  Both engines behave this way. -/
theorem c10_insert_failure_no_mutation (s : MDBState) (tableName : String)
    (record : Record) (keyColumn : Option String) (e : Err) :
    ((GuiDB.insert s tableName record keyColumn).1 = Except.error e →
      (GuiDB.insert s tableName record keyColumn).2 = s ∧
      (e = Err.noTable tableName ∨ (∃ c, e = Err.missingColumn c) ∨
       (∃ c, e = Err.typeMismatch c) ∨ (∃ c, e = Err.duplicateKey c))) ∧
    ((TermDB.insert s tableName record keyColumn).1 = Except.error e →
      (TermDB.insert s tableName record keyColumn).2 = s ∧
      (e = Err.noTable tableName ∨ (∃ c, e = Err.missingColumn c) ∨
       (∃ c, e = Err.typeMismatch c) ∨ (∃ c, e = Err.duplicateKey c))) := by
  constructor
  · intro herr
    unfold GuiDB.insert at herr ⊢
    split at herr
    next heq =>
      refine ⟨rfl, Or.inl ?_⟩
      exact (((Except.error.injEq _ _).mp herr)).symm
    next rows heq =>
      split at herr
      next e2 heq2 =>
        refine ⟨rfl, ?_⟩
        obtain rfl : e2 = e := (Except.error.injEq _ _).mp herr
        rw [GuiDB.validateRecord] at heq2
        rcases h3 : lookupA s.schemas tableName with _ | sch
        · rw [h3] at heq2; exact absurd heq2 (by simp)
        · rw [h3] at heq2
          dsimp only at heq2
          rcases validateCols_error sch record _ heq2 with ⟨c, hc⟩ | ⟨c, hc⟩
          · exact Or.inr (Or.inl ⟨c, hc⟩)
          · exact Or.inr (Or.inr (Or.inl ⟨c, hc⟩))
      next heq2 =>
        dsimp only at herr ⊢
        split at herr
        next hdup =>
          rw [if_pos hdup]
          refine ⟨rfl, ?_⟩
          exact Or.inr (Or.inr (Or.inr ⟨keyColumn.getD "",
            ((Except.error.injEq _ _).mp herr).symm⟩))
        next hdup => simp at herr
  · intro herr
    unfold TermDB.insert at herr ⊢
    split at herr
    next heq =>
      refine ⟨rfl, Or.inl ?_⟩
      exact (((Except.error.injEq _ _).mp herr)).symm
    next rows heq =>
      split at herr
      next e2 heq2 =>
        refine ⟨rfl, ?_⟩
        obtain rfl : e2 = e := (Except.error.injEq _ _).mp herr
        rw [TermDB.validateRecord] at heq2
        rcases h3 : lookupA s.schemas tableName with _ | sch
        · rw [h3] at heq2; exact absurd heq2 (by simp)
        · rw [h3] at heq2
          dsimp only at heq2
          rw [validateCols_eq] at heq2
          rcases validateCols_error sch record _ heq2 with ⟨c, hc⟩ | ⟨c, hc⟩
          · exact Or.inr (Or.inl ⟨c, hc⟩)
          · exact Or.inr (Or.inr (Or.inl ⟨c, hc⟩))
      next heq2 =>
        dsimp only at herr ⊢
        split at herr
        next hdup =>
          rw [if_pos hdup]
          refine ⟨rfl, ?_⟩
          exact Or.inr (Or.inr (Or.inr ⟨keyColumn.getD "",
            ((Except.error.injEq _ _).mp herr).symm⟩))
        next hdup => simp at herr

/-- Witness for C10: inserting into a missing table fails and leaves the
state untouched in both engines. -/
theorem c10_insert_failure_no_mutation_witness :
    ((GuiDB.insert exEmpty "t" [] none).1 =
        Except.error (Err.noTable "t") →
      (GuiDB.insert exEmpty "t" [] none).2 = exEmpty ∧
      (Err.noTable "t" = Err.noTable "t" ∨
       (∃ c, Err.noTable "t" = Err.missingColumn c) ∨
       (∃ c, Err.noTable "t" = Err.typeMismatch c) ∨
       (∃ c, Err.noTable "t" = Err.duplicateKey c))) ∧
    ((TermDB.insert exEmpty "t" [] none).1 =
        Except.error (Err.noTable "t") →
      (TermDB.insert exEmpty "t" [] none).2 = exEmpty ∧
      (Err.noTable "t" = Err.noTable "t" ∨
       (∃ c, Err.noTable "t" = Err.missingColumn c) ∨
       (∃ c, Err.noTable "t" = Err.typeMismatch c) ∨
       (∃ c, Err.noTable "t" = Err.duplicateKey c))) :=
  c10_insert_failure_no_mutation exEmpty "t" [] none (Err.noTable "t")

/-- Claim C1 counterexample: a bound schema declaring a Boolean column does
not survive the save/load round trip.  `_save` renders the `bool` type
object as the string `"bool"`, which `load_table`'s Current-format parser
does not recognise and maps to `None` (`Any`), so the loaded schema differs
from the pre-write one. -/
theorem c1_counterexample :
    (GuiDB.loadTable (GuiDB.save exBoolSchema "t") "t").1 = Except.ok () ∧
    lookupA (GuiDB.loadTable (GuiDB.save exBoolSchema "t") "t").2.schemas
        "t" = some [("flag", (none : Option PyKind))] ∧
    lookupA exBoolSchema.schemas "t" = some [("flag", some PyKind.bool)] ∧
    some [("flag", (none : Option PyKind))] ≠
      some [("flag", some PyKind.bool)] :=
  ⟨rfl, rfl, rfl, by decide⟩

/-- Claim C1 (amended): for a table with a bound schema and any row
sequence, saving through the GUI `_save` and loading through the GUI
`load_table` restores the row sequence exactly, and restores the schema
exactly whenever no column's declared kind is Boolean (a Boolean kind
degrades to `Any`, see the counterexample). -/
theorem c1_save_load_roundTrip (s : MDBState) (tableName : String)
    (rows : List Record) (sch : Schema)
    (hrows : lookupA s.tables tableName = some rows)
    (hsch : lookupA s.schemas tableName = some sch)
    (hnb : ∀ p ∈ sch, p.2 ≠ some PyKind.bool) :
    (GuiDB.loadTable (GuiDB.save s tableName) tableName).1 = Except.ok () ∧
    lookupA (GuiDB.loadTable (GuiDB.save s tableName) tableName).2.tables
      tableName = some rows ∧
    lookupA (GuiDB.loadTable (GuiDB.save s tableName) tableName).2.schemas
      tableName = some sch := by
  have hfile : lookupA (GuiDB.save s tableName).files tableName =
      some (GuiDB.saveData s tableName) := lookupA_setA_self _ _ _
  have hdata : GuiDB.saveData s tableName =
      JVal.obj [
        ("schema", JVal.obj (sch.map (fun p => (p.1, GuiDB.kindName p.2)))),
        ("rows", JVal.arr (rows.map Record.toJ))] := by
    rw [GuiDB.saveData, hrows, hsch]
    rfl
  have hrt : sch.map (fun p => (p.1, GuiDB.parseKind (GuiDB.kindName p.2))) =
      sch := schema_roundTrip sch hnb
  have hs1 : lookupA
      [("schema", JVal.obj (sch.map (fun p => (p.1, GuiDB.kindName p.2)))),
       ("rows", JVal.arr (rows.map Record.toJ))] "schema" =
      some (JVal.obj (sch.map (fun p => (p.1, GuiDB.kindName p.2)))) := rfl
  have hs2 : lookupA
      [("schema", JVal.obj (sch.map (fun p => (p.1, GuiDB.kindName p.2)))),
       ("rows", JVal.arr (rows.map Record.toJ))] "rows" =
      some (JVal.arr (rows.map Record.toJ)) := rfl
  simp only [GuiDB.loadTable, hfile, hdata, hs1, hs2, GuiDB.parseSchemaObj,
    GuiDB.rowsField, recordsOf_toJ, List.map_map, Function.comp_def,
    Option.getD_some, lookupA_setA_self, hrt]
  exact ⟨trivial, trivial, trivial⟩

/-- Witness for the amended C1 round trip on a one-row table with an `int`
schema. -/
theorem c1_save_load_roundTrip_witness :
    (GuiDB.loadTable (GuiDB.save exOneRow "t") "t").1 = Except.ok () ∧
    lookupA (GuiDB.loadTable (GuiDB.save exOneRow "t") "t").2.tables "t" =
      some [[("id", Value.int 1)]] ∧
    lookupA (GuiDB.loadTable (GuiDB.save exOneRow "t") "t").2.schemas "t" =
      some [("id", some PyKind.int)] :=
  c1_save_load_roundTrip exOneRow "t" [[("id", Value.int 1)]]
    [("id", some PyKind.int)] rfl rfl (by decide)

/-- Claim C6 (confirmed): `begin_transaction` snapshots the current rows;
after any sequence of row mutations (inserts, updates, deletes, on any
tables, succeeding or failing), `rollback` restores exactly the snapshotted
row sequence and removes the pending entry, and a second `rollback` with no
intervening `begin` returns success and changes nothing. -/
theorem c6_rollback_restores_snapshot (s : MDBState) (tableName : String)
    (rows : List Record) (ops : List MutOp)
    (hrows : lookupA s.tables tableName = some rows)
    (htx : keysUnique s.transactions) :
    (GuiDB.rollback (applyMuts (GuiDB.beginTransaction s tableName).2 ops)
        tableName).1 = Except.ok () ∧
    lookupA (GuiDB.rollback (applyMuts (GuiDB.beginTransaction s tableName).2
        ops) tableName).2.tables tableName = some rows ∧
    lookupA (GuiDB.rollback (applyMuts (GuiDB.beginTransaction s tableName).2
        ops) tableName).2.transactions tableName = none ∧
    GuiDB.rollback (GuiDB.rollback (applyMuts
        (GuiDB.beginTransaction s tableName).2 ops) tableName).2 tableName =
      (Except.ok (), (GuiDB.rollback (applyMuts
        (GuiDB.beginTransaction s tableName).2 ops) tableName).2) := by
  set a := applyMuts (GuiDB.beginTransaction s tableName).2 ops with ha
  have htx2 : a.transactions = setA s.transactions tableName rows := by
    rw [ha, applyMuts_transactions]
    rw [GuiDB.beginTransaction, hrows]
  have hfind : lookupA a.transactions tableName = some rows := by
    rw [htx2]
    exact lookupA_setA_self _ _ _
  have hrb : GuiDB.rollback a tableName =
      (Except.ok (), ⟨setA a.tables tableName rows, a.schemas,
        delA a.transactions tableName, a.files⟩) := by
    rw [GuiDB.rollback, hfind]
  have hku : keysUnique a.transactions := by
    rw [htx2]
    exact keysUnique_setA _ _ _ htx
  have hnone : lookupA (delA a.transactions tableName) tableName = none :=
    lookupA_delA_self _ _ hku
  have hrb2 : GuiDB.rollback ⟨setA a.tables tableName rows, a.schemas,
      delA a.transactions tableName, a.files⟩ tableName =
      (Except.ok (), ⟨setA a.tables tableName rows, a.schemas,
        delA a.transactions tableName, a.files⟩) := by
    rw [GuiDB.rollback]
    dsimp only
    rw [hnone]
  refine ⟨?_, ?_, ?_, ?_⟩
  · rw [hrb]
  · rw [hrb]
    exact lookupA_setA_self _ _ _
  · rw [hrb]
    exact hnone
  · rw [hrb]
    exact hrb2

/-- Witness for C6: snapshot a one-row table, insert three rows, roll back.
The restored rows, the cleared pending entry and the idempotent second
rollback are all checked at this concrete input. -/
theorem c6_rollback_restores_snapshot_witness :
    (GuiDB.rollback (applyMuts (GuiDB.beginTransaction exOneRow "t").2
        exThreeInserts) "t").1 = Except.ok () ∧
    lookupA (GuiDB.rollback (applyMuts (GuiDB.beginTransaction exOneRow
        "t").2 exThreeInserts) "t").2.tables "t" =
      some [[("id", Value.int 1)]] ∧
    lookupA (GuiDB.rollback (applyMuts (GuiDB.beginTransaction exOneRow
        "t").2 exThreeInserts) "t").2.transactions "t" = none ∧
    GuiDB.rollback (GuiDB.rollback (applyMuts (GuiDB.beginTransaction
        exOneRow "t").2 exThreeInserts) "t").2 "t" =
      (Except.ok (), (GuiDB.rollback (applyMuts (GuiDB.beginTransaction
        exOneRow "t").2 exThreeInserts) "t").2) :=
  c6_rollback_restores_snapshot exOneRow "t" [[("id", Value.int 1)]]
    exThreeInserts rfl (by simp [keysUnique, exOneRow])

/-- Claim C4 counterexample: loading a legacy file whose first record holds
the Boolean `true` infers the `int` kind for that column, not `Any`: the
inference runs `isinstance(v, int)` first and Python booleans are ints.
This refutes "anything else maps to Any" for Boolean values. -/
theorem c4_counterexample :
    (GuiDB.loadTable exLegacyBoolFile "t").1 = Except.ok () ∧
    lookupA (GuiDB.loadTable exLegacyBoolFile "t").2.schemas "t" =
      some [("flag", some PyKind.int)] ∧
    (some PyKind.int : Option PyKind) ≠ none :=
  ⟨rfl, rfl, by decide⟩

/-- Claim C4 (amended, GUI engine): `load_table` detects the persisted
format.  A bare list of records is accepted, adopting the rows and
inferring a schema from the first record — values satisfying
`isinstance(v, int)` (which includes Booleans) infer `int`, then `float`,
then `str`, anything else `Any`.  An object is accepted as the Current
format, parsing its `schema` and `rows` fields.  Any scalar top-level
shape fails with `Unsupported .mdb format`, and a missing file fails with
`FileNotFoundError`. -/
theorem c4_load_format_detection (s : MDBState) (tableName : String) :
    (∀ rows : List Record,
      lookupA s.files tableName = some (JVal.arr (rows.map Record.toJ)) →
      (GuiDB.loadTable s tableName).1 = Except.ok () ∧
      lookupA (GuiDB.loadTable s tableName).2.tables tableName = some rows ∧
      lookupA (GuiDB.loadTable s tableName).2.schemas tableName =
        some (GuiDB.inferSchema rows)) ∧
    (∀ fs sch rows,
      lookupA s.files tableName = some (JVal.obj fs) →
      GuiDB.parseSchemaObj ((lookupA fs "schema").getD (JVal.obj [])) =
        some sch →
      recordsOf (GuiDB.rowsField fs) = some rows →
      (GuiDB.loadTable s tableName).1 = Except.ok () ∧
      lookupA (GuiDB.loadTable s tableName).2.tables tableName = some rows ∧
      lookupA (GuiDB.loadTable s tableName).2.schemas tableName =
        some sch) ∧
    (∀ doc, lookupA s.files tableName = some doc →
      (∀ xs, doc ≠ JVal.arr xs) → (∀ fs, doc ≠ JVal.obj fs) →
      GuiDB.loadTable s tableName =
        (Except.error Err.unsupportedFormat, s)) ∧
    (lookupA s.files tableName = none →
      GuiDB.loadTable s tableName =
        (Except.error (Err.fileNotFound tableName), s)) := by
  refine ⟨?_, ?_, ?_, ?_⟩
  · intro rows h
    simp only [GuiDB.loadTable, h, recordsOf_toJ, lookupA_setA_self]
    exact ⟨trivial, trivial, trivial⟩
  · intro fs sch rows h hps hrs
    simp only [GuiDB.loadTable, h, hps, hrs, lookupA_setA_self]
    exact ⟨trivial, trivial, trivial⟩
  · intro doc h hna hno
    cases doc with
    | arr xs => exact absurd rfl (hna xs)
    | obj fs => exact absurd rfl (hno fs)
    | null => simp only [GuiDB.loadTable, h]
    | bool b => simp only [GuiDB.loadTable, h]
    | int n => simp only [GuiDB.loadTable, h]
    | float q => simp only [GuiDB.loadTable, h]
    | str c => simp only [GuiDB.loadTable, h]
  · intro h
    simp only [GuiDB.loadTable, h]

/-- Witness for C4 at four concrete persisted files: a legacy list, a
Current object, a bare integer, and a missing file. -/
theorem c4_load_format_detection_witness :
    ((GuiDB.loadTable exLegacyBoolFile "t").1 = Except.ok () ∧
      lookupA (GuiDB.loadTable exLegacyBoolFile "t").2.tables "t" =
        some [[("flag", Value.bool true)]] ∧
      lookupA (GuiDB.loadTable exLegacyBoolFile "t").2.schemas "t" =
        some (GuiDB.inferSchema [[("flag", Value.bool true)]])) ∧
    ((GuiDB.loadTable exCurrentFile "t").1 = Except.ok () ∧
      lookupA (GuiDB.loadTable exCurrentFile "t").2.tables "t" = some [] ∧
      lookupA (GuiDB.loadTable exCurrentFile "t").2.schemas "t" =
        some [("id", some PyKind.int)]) ∧
    (GuiDB.loadTable exScalarFile "t" =
      (Except.error Err.unsupportedFormat, exScalarFile)) ∧
    (GuiDB.loadTable exEmpty "t" =
      (Except.error (Err.fileNotFound "t"), exEmpty)) :=
  ⟨(c4_load_format_detection exLegacyBoolFile "t").1
      [[("flag", Value.bool true)]] rfl,
   (c4_load_format_detection exCurrentFile "t").2.1
      [("schema", JVal.obj [("id", JVal.str "int")]),
       ("rows", JVal.arr [])] [("id", some PyKind.int)] [] rfl rfl rfl,
   (c4_load_format_detection exScalarFile "t").2.2.1 (JVal.int 5) rfl
      (fun _ h => JVal.noConfusion h) (fun _ h => JVal.noConfusion h),
   (c4_load_format_detection exEmpty "t").2.2.2 rfl⟩

/-- Claim C5 counterexample: from the same starting state and arguments,
creating a table writes different file content in the two engines — the
terminal engine persists the bare row list, the GUI engine persists the
Current-shape object — so the engines are not behaviourally equivalent. -/
theorem c5_counterexample :
    (TermDB.createTable exEmpty "u" (some [("id", some PyKind.int)])).1 =
      Except.ok () ∧
    (GuiDB.createTable exEmpty "u" (some [("id", some PyKind.int)])).1 =
      Except.ok () ∧
    lookupA (TermDB.createTable exEmpty "u"
        (some [("id", some PyKind.int)])).2.files "u" =
      some (JVal.arr []) ∧
    lookupA (GuiDB.createTable exEmpty "u"
        (some [("id", some PyKind.int)])).2.files "u" =
      some (JVal.obj [("schema", JVal.obj [("id", JVal.str "int")]),
        ("rows", JVal.arr [])]) ∧
    JVal.arr [] ≠ JVal.obj [("schema", JVal.obj [("id", JVal.str "int")]),
      ("rows", JVal.arr [])] :=
  ⟨rfl, rfl, rfl, rfl, fun h => JVal.noConfusion h⟩

/-- Claim C5 (amended): for the shared operations — validation, create,
insert, update, delete, drop, begin, rollback, commit — the two engines
produce, from identical starting state and arguments, the same in-memory
state (tables, schemas, transactions) and the same success or error
outcome (the terminal update/delete only print the count the GUI versions
return).  They are not equivalent on persisted file content (see the
counterexample), and the terminal engine's `load_table` and `_save` differ
from the GUI ones. -/
theorem c5_engines_agree_in_memory :
    (∀ sch r, TermDB.validateCols sch r = GuiDB.validateCols sch r) ∧
    (∀ s tableName schema,
      (TermDB.createTable s tableName schema).1 =
        (GuiDB.createTable s tableName schema).1 ∧
      (TermDB.createTable s tableName schema).2.inMem =
        (GuiDB.createTable s tableName schema).2.inMem) ∧
    (∀ s tableName record keyColumn,
      (TermDB.insert s tableName record keyColumn).1 =
        (GuiDB.insert s tableName record keyColumn).1 ∧
      (TermDB.insert s tableName record keyColumn).2.inMem =
        (GuiDB.insert s tableName record keyColumn).2.inMem) ∧
    (∀ s tableName conds updates,
      (TermDB.update s tableName conds updates).1 =
        ((GuiDB.update s tableName conds updates).1.map fun _ => ()) ∧
      (TermDB.update s tableName conds updates).2.inMem =
        (GuiDB.update s tableName conds updates).2.inMem) ∧
    (∀ s tableName conds,
      (TermDB.delete s tableName conds).1 =
        ((GuiDB.delete s tableName conds).1.map fun _ => ()) ∧
      (TermDB.delete s tableName conds).2.inMem =
        (GuiDB.delete s tableName conds).2.inMem) ∧
    (∀ s tableName, TermDB.dropTable s tableName =
      GuiDB.dropTable s tableName) ∧
    (∀ s tableName, TermDB.beginTransaction s tableName =
      GuiDB.beginTransaction s tableName) ∧
    (∀ s tableName, TermDB.rollback s tableName =
      GuiDB.rollback s tableName) ∧
    (∀ s tableName,
      (TermDB.commit s tableName).1 = (GuiDB.commit s tableName).1 ∧
      (TermDB.commit s tableName).2.inMem =
        (GuiDB.commit s tableName).2.inMem) := by
  refine ⟨validateCols_eq, ?_, ?_, ?_, ?_, ?_, ?_, ?_, ?_⟩
  · intro s tableName schema
    unfold TermDB.createTable GuiDB.createTable
    by_cases h : (lookupA s.tables tableName).isSome
    · rw [if_pos h, if_pos h]
      exact ⟨by trivial, by trivial⟩
    · rw [if_neg h, if_neg h]
      dsimp only
      cases schema with
      | none => exact ⟨by trivial, by trivial⟩
      | some sc =>
        by_cases he : sc.isEmpty
        · simp only [he, if_true]
          exact ⟨by trivial, by trivial⟩
        · simp only [he, if_false]
          exact ⟨by trivial, by trivial⟩
  · intro s tableName record keyColumn
    unfold TermDB.insert GuiDB.insert
    rw [validateRecord_eq]
    rcases h1 : lookupA s.tables tableName with _ | rows
    · simp only [h1]
      exact ⟨by trivial, by trivial⟩
    · simp only [h1]
      rcases h2 : GuiDB.validateRecord s tableName record with e | u
      · simp only [h2]
        exact ⟨by trivial, by trivial⟩
      · cases u
        simp only [h2]
        split
        · exact ⟨by trivial, by trivial⟩
        · exact ⟨by trivial, by trivial⟩
  · intro s tableName conds updates
    unfold TermDB.update GuiDB.update
    rcases h1 : lookupA s.tables tableName with _ | rows
    · simp only [h1]
      exact ⟨by trivial, by trivial⟩
    · simp only [h1]
      rcases hur : TermDB.updateRows conds updates rows with ⟨nr, cnt⟩
      simp only [hur]
      exact ⟨by trivial, by trivial⟩
  · intro s tableName conds
    unfold TermDB.delete GuiDB.delete
    rcases h1 : lookupA s.tables tableName with _ | rows
    · simp only [h1]
      exact ⟨by trivial, by trivial⟩
    · simp only [h1]
      exact ⟨by trivial, by trivial⟩
  · intro s tableName
    rfl
  · intro s tableName
    rfl
  · intro s tableName
    rfl
  · intro s tableName
    unfold TermDB.commit GuiDB.commit
    rcases h1 : lookupA s.transactions tableName with _ | snap
    · simp only [h1]
      exact ⟨by trivial, by trivial⟩
    · simp only [h1]
      exact ⟨by trivial, by trivial⟩
